import Mathlib

/-!
Shallow embedding of the session/request lifecycle manager of the
my_honeywell integration: the `AIOSomeComfort` client
(`custom_components/my_honeywell/aiosomecomfort/__init__.py`) and the
polling coordinator (`custom_components/my_honeywell/__init__.py`).

The transport layer (aiohttp) is modelled as an oracle `env : Nat →
TransportEvent` indexed by the number of transport calls made so far; a
`World` carries the client's mutable session state together with that
call counter.  Exceptions are modelled with `Except`; time is a `Nat`
parameter passed to the operations that consult the rate-limit clock.
-/

namespace MyHoneywell

/-- MAX_LOGIN_ATTEMPTS constant from the client module. -/
def MAX_LOGIN_ATTEMPTS : Nat := 3

/-- MIN_LOGIN_TIME (10 minutes) from the client module, in seconds. -/
def MIN_LOGIN_TIME : Nat := 600

/-- DEFAULT_RETRY_COUNT constant from the client module. -/
def DEFAULT_RETRY_COUNT : Nat := 3

/-- Content type of an HTTP response, as far as the client inspects it. -/
inductive ContentType
  | json
  | octetStream
  | other
deriving DecidableEq, Repr

/-- The parts of an aiohttp response the client inspects: HTTP status,
content type, whether the response went through an internal redirect
(`len(resp.history) > 0`), and the `.ASPXAUTH_TRUEHOME` cookie
(`none` = cookie absent, `some v` = cookie present with value `v`). -/
structure Response where
  status : Nat
  contentType : ContentType
  hasHistory : Bool
  cookie : Option String
deriving DecidableEq, Repr

/-- One transport interaction: either a response arrives, or the
transport layer raises an `aiohttp.ClientError`. -/
inductive TransportEvent
  | resp (r : Response)
  | exc
deriving DecidableEq, Repr

/-- The exception kinds of the client module, plus `clientError` for a
raw `aiohttp.ClientError` that escapes a method not wrapped in the
`_convert_errors` decorator. -/
inductive SCError
  | someComfortError
  | connectionError
  | authError
  | apiError
  | apiRateLimited
  | serviceUnavailable
  | unexpectedResponse
  | unauthorizedError
  | clientError
deriving DecidableEq, Repr

/-- The session state of `AIOSomeComfort`: `_null_cookie_count`,
`_next_login` (a timestamp, in seconds) and `_is_authenticated`. -/
structure ClientState where
  nullCookieCount : Nat
  nextLogin : Nat
  isAuthenticated : Bool
deriving DecidableEq, Repr

/-- Session state together with the number of transport calls made. -/
structure World where
  st : ClientState
  calls : Nat
deriving DecidableEq, Repr

/-- Perform one transport call: read the next event from the oracle and
advance the call counter. -/
def stepT (env : Nat → TransportEvent) (w : World) : TransportEvent × World :=
  (env w.calls, { w with calls := w.calls + 1 })

/-- Model of `AIOSomeComfort._set_null_count`: bump the null-cookie counter, drop
the authenticated flag, and once the counter reaches
`MAX_LOGIN_ATTEMPTS` push `_next_login` to `now + MIN_LOGIN_TIME`. -/
def setNullCount (now : Nat) (s : ClientState) : ClientState :=
  let s' : ClientState :=
    { s with nullCookieCount := s.nullCookieCount + 1, isAuthenticated := false }
  if s'.nullCookieCount ≥ MAX_LOGIN_ATTEMPTS then
    { s' with nextLogin := now + MIN_LOGIN_TIME }
  else
    s'

/-- Model of `AIOSomeComfort.login` (wrapped in `_convert_errors`, so a transport
exception becomes `connectionError`).  Refuses with `apiRateLimited`
before `_next_login`; otherwise POSTs the credentials and then GETs the
portal to verify, classifying each response exactly as the source does. -/
def login (env : Nat → TransportEvent) (now : Nat) (w : World) :
    Except SCError Unit × World :=
  if w.st.nextLogin > now then
    (Except.error SCError.apiRateLimited, w)
  else
    let p := stepT env w
    match p.1 with
    | TransportEvent.exc => (Except.error SCError.connectionError, p.2)
    | TransportEvent.resp r =>
      if r.status = 401 then
        (Except.error SCError.authError, { p.2 with st := setNullCount now p.2.st })
      else if r.status ≠ 200 then
        (Except.error SCError.connectionError, p.2)
      else
        let q := stepT env p.2
        match q.1 with
        | TransportEvent.exc => (Except.error SCError.connectionError, q.2)
        | TransportEvent.resp r2 =>
          if r2.cookie = some "" then
            (Except.error SCError.authError, { q.2 with st := setNullCount now q.2.st })
          else if r2.status = 401 then
            (Except.error SCError.authError, { q.2 with st := setNullCount now q.2.st })
          else if r2.status ≠ 200 then
            (Except.error SCError.connectionError, q.2)
          else
            (Except.ok (),
             { q.2 with st :=
                { q.2.st with nullCookieCount := 0, isAuthenticated := true } })

/-- Model of `AIOSomeComfort.ensure_authenticated`: a no-op when the client
believes it is authenticated, otherwise a `login`. -/
def ensureAuthenticated (env : Nat → TransportEvent) (now : Nat) (w : World) :
    Except SCError Unit × World :=
  if w.st.isAuthenticated then (Except.ok (), w) else login env now w

/-- Model of `AIOSomeComfort._request_json` (NOT wrapped in `_convert_errors`): a
single transport call classified into the error taxonomy.  A raw
transport exception escapes unconverted (`clientError`).  On a 200 with
an expected content type the null-cookie counter is reset and the
response is returned; 401/403 drop the authenticated flag and raise
`unauthorizedError`; 500/502/503 or a redirected response raise
`serviceUnavailable`; anything else raises `unexpectedResponse`. -/
def requestJson (env : Nat → TransportEvent) (w : World) :
    Except SCError Response × World :=
  let p := stepT env w
  match p.1 with
  | TransportEvent.exc => (Except.error SCError.clientError, p.2)
  | TransportEvent.resp r =>
    if r.status = 200 ∧
        (r.contentType = ContentType.json ∨ r.contentType = ContentType.octetStream) then
      (Except.ok r, { p.2 with st := { p.2.st with nullCookieCount := 0 } })
    else if r.status = 401 then
      (Except.error SCError.unauthorizedError,
       { p.2 with st := { p.2.st with isAuthenticated := false } })
    else if r.status = 403 then
      (Except.error SCError.unauthorizedError,
       { p.2 with st := { p.2.st with isAuthenticated := false } })
    else if r.status = 500 ∨ r.status = 502 ∨ r.status = 503 ∨ r.hasHistory = true then
      (Except.error SCError.serviceUnavailable, p.2)
    else
      (Except.error SCError.unexpectedResponse, p.2)

/-- The body of one attempt of the retry loop: `ensure_authenticated`
followed by `_request_json`, exceptions from either flowing to the same
handlers. -/
def attemptBody (env : Nat → TransportEvent) (now : Nat) (w : World) :
    Except SCError Response × World :=
  match ensureAuthenticated env now w with
  | (Except.ok _, w1) => requestJson env w1
  | (Except.error e, w1) => (Except.error e, w1)

/-- Set `_is_authenticated = False`, as the `UnauthorizedError` handler
of the retry loop does before re-login. -/
def authOff (w : World) : World :=
  { w with st := { w.st with isAuthenticated := false } }

/-- The `for attempt in range(retries)` loop of
`AIOSomeComfort._request_json_with_retry`, by remaining attempts.  On
`unauthorizedError` the handler drops the flag and re-logins: a login
failing with `authError`/`apiRateLimited` is recorded and retried, any
other login failure propagates at once.  `serviceUnavailable` and
`connectionError` are recorded and retried; all other errors propagate.
When attempts run out, the last recorded error (or a generic
`someComfortError`) is raised. -/
def retryAux (env : Nat → TransportEvent) (now : Nat) :
    Nat → Option SCError → World → Except SCError Response × World
  | 0, last, w => (Except.error (last.getD SCError.someComfortError), w)
  | n + 1, last, w =>
    match attemptBody env now w with
    | (Except.ok r, w1) => (Except.ok r, w1)
    | (Except.error SCError.unauthorizedError, w1) =>
      (match login env now (authOff w1) with
       | (Except.ok _, w2) => retryAux env now n last w2
       | (Except.error SCError.authError, w2) =>
          retryAux env now n (some SCError.authError) w2
       | (Except.error SCError.apiRateLimited, w2) =>
          retryAux env now n (some SCError.apiRateLimited) w2
       | (Except.error e, w2) => (Except.error e, w2))
    | (Except.error SCError.serviceUnavailable, w1) =>
      retryAux env now n (some SCError.serviceUnavailable) w1
    | (Except.error SCError.connectionError, w1) =>
      retryAux env now n (some SCError.connectionError) w1
    | (Except.error e, w1) => (Except.error e, w1)

/-- Model of `AIOSomeComfort._request_json_with_retry` with `retries` attempts. -/
def requestJsonWithRetry (env : Nat → TransportEvent) (now : Nat)
    (retries : Nat) (w : World) : Except SCError Response × World :=
  retryAux env now retries none w

/-!
Coordinator model (`MyHoneywellCoordinator._async_update_data`).  The
client and the devices are collaborators of the orchestrator layer, so
one poll-cycle invocation is driven by an oracle `CycleInput`: the
outcome of `ensure_authenticated`, the outcome of each `device.refresh()`,
and the outcome of the `client.login()` the `UnauthorizedError` handler
performs.  The recursive re-entry of `_async_update_data` consumes the
next `CycleInput` of the list.
-/

/-- Outcome of a single `device.refresh()` call: success (with the
device's `is_alive` flag) or an exception of kind `e`. -/
inductive RefreshOutcome
  | ok (alive : Bool)
  | err (e : SCError)
deriving DecidableEq, Repr

/-- Whether an exception kind is (a subclass of) `SomeComfortError`.
Only a raw `aiohttp.ClientError` is not. -/
def isSomeComfortError : SCError → Bool
  | SCError.clientError => false
  | _ => true

/-- Result of the `try` block of `_async_update_data`: either the fresh
`device_data` mapping (device id, `available` flag), or an exception
escaping the block. -/
inductive TryOutcome
  | success (data : List (Nat × Bool))
  | raised (e : SCError)
deriving DecidableEq, Repr

/-- The per-device loop of `_async_update_data`: a refresh failing with
a `SomeComfortError` records the device with `available = False` and the
loop continues; any other exception escapes the block. -/
def devLoop : List (Nat × RefreshOutcome) → List (Nat × Bool) → TryOutcome
  | [], acc => TryOutcome.success acc.reverse
  | (i, RefreshOutcome.ok alive) :: rest, acc => devLoop rest ((i, alive) :: acc)
  | (i, RefreshOutcome.err e) :: rest, acc =>
    if isSomeComfortError e then devLoop rest ((i, false) :: acc)
    else TryOutcome.raised e

/-- Oracle for one invocation of `_async_update_data`: result of
`ensure_authenticated` (`none` = success), the device refresh outcomes,
and the result of the recovery `client.login()` (`none` = success),
consulted only when the `UnauthorizedError` handler runs. -/
structure CycleInput where
  auth : Option SCError
  devs : List (Nat × RefreshOutcome)
  loginResult : Option SCError
deriving DecidableEq, Repr

/-- The whole `try` block of one invocation: `ensure_authenticated`
first, then the per-device loop. -/
def tryBlock (inp : CycleInput) : TryOutcome :=
  match inp.auth with
  | some e => TryOutcome.raised e
  | none => devLoop inp.devs []

/-- Coordinator state: `_consecutive_errors`. -/
structure CoordState where
  consecutiveErrors : Nat
deriving DecidableEq, Repr

/-- The `_max_consecutive_errors` threshold of `MyHoneywellCoordinator`. -/
def maxConsecutiveErrors : Nat := 5

/-- What one external call of `_async_update_data` does: return fresh
data, return the stale previous snapshot (`self.data` or `{}`), raise
`UpdateFailed`, let some other exception escape, or (in the model) run
out of oracle inputs while still recursing. -/
inductive CoordOutcome
  | ret (data : List (Nat × Bool))
  | retStale
  | fatal
  | escape (e : SCError)
  | outOfFuel
deriving DecidableEq, Repr

/-- Model of `MyHoneywellCoordinator._async_update_data`.  Returns the outcome,
the final coordinator state, and the number of cycle invocations
executed (the recursive restart in the `UnauthorizedError` handler
consumes the next `CycleInput`).  Mirrors the source's handlers: success
resets the error counter; `UnauthorizedError` re-logins and restarts
recursively on success, raises `UpdateFailed` on `AuthError`, and lets
any other login failure escape; `APIRateLimited` returns stale data;
`ServiceUnavailable` and `ConnectionError` increment the counter first
and raise `UpdateFailed` once it reaches the threshold, otherwise return
stale data; any other exception increments the counter and raises
`UpdateFailed`. -/
def asyncUpdateData : List CycleInput → CoordState → CoordOutcome × CoordState × Nat
  | [], c => (CoordOutcome.outOfFuel, c, 0)
  | inp :: rest, c =>
    match tryBlock inp with
    | TryOutcome.success data => (CoordOutcome.ret data, ⟨0⟩, 1)
    | TryOutcome.raised SCError.unauthorizedError =>
      (match inp.loginResult with
       | none =>
         let r := asyncUpdateData rest c
         (r.1, r.2.1, r.2.2 + 1)
       | some SCError.authError =>
         (CoordOutcome.fatal, ⟨c.consecutiveErrors + 1⟩, 1)
       | some e2 => (CoordOutcome.escape e2, c, 1))
    | TryOutcome.raised SCError.apiRateLimited =>
      (CoordOutcome.retStale, ⟨c.consecutiveErrors + 1⟩, 1)
    | TryOutcome.raised SCError.serviceUnavailable =>
      if c.consecutiveErrors + 1 ≥ maxConsecutiveErrors then
        (CoordOutcome.fatal, ⟨c.consecutiveErrors + 1⟩, 1)
      else
        (CoordOutcome.retStale, ⟨c.consecutiveErrors + 1⟩, 1)
    | TryOutcome.raised SCError.connectionError =>
      if c.consecutiveErrors + 1 ≥ maxConsecutiveErrors then
        (CoordOutcome.fatal, ⟨c.consecutiveErrors + 1⟩, 1)
      else
        (CoordOutcome.retStale, ⟨c.consecutiveErrors + 1⟩, 1)
    | TryOutcome.raised _ =>
      (CoordOutcome.fatal, ⟨c.consecutiveErrors + 1⟩, 1)

/-!  Concrete fixtures used by counterexamples and witnesses. -/

/-- A plain 401 response. -/
def r401 : Response := ⟨401, ContentType.json, false, none⟩

/-- A successful 200 JSON response without auth cookie. -/
def r200j : Response := ⟨200, ContentType.json, false, none⟩

/-- A 500 response. -/
def r500 : Response := ⟨500, ContentType.json, false, none⟩

/-- A 200 verification response carrying an empty-valued auth cookie. -/
def rEmptyCookie : Response := ⟨200, ContentType.other, false, some ""⟩

/-- A transport oracle alternating 401, 200, 401, 200, ... -/
def altEnv (i : Nat) : TransportEvent :=
  if i % 2 = 0 then TransportEvent.resp r401 else TransportEvent.resp r200j

/-- A transport oracle answering 401 on the first call, 500 afterwards. -/
def env401then500 (i : Nat) : TransportEvent :=
  if i = 0 then TransportEvent.resp r401 else TransportEvent.resp r500

/-- A 503 response. -/
def r503 : Response := ⟨503, ContentType.other, false, none⟩

/-- A transport oracle always answering 503. -/
def env503 (_ : Nat) : TransportEvent := TransportEvent.resp r503

/-- A transport oracle always answering 500. -/
def env500 (_ : Nat) : TransportEvent := TransportEvent.resp r500

/-- A transport oracle always answering 200 JSON. -/
def env200 (_ : Nat) : TransportEvent := TransportEvent.resp r200j

/-- A transport oracle always answering 200 with an empty auth cookie. -/
def envEmptyCookie (_ : Nat) : TransportEvent := TransportEvent.resp rEmptyCookie

/-- Fresh world, already authenticated, no calls made yet. -/
def wAuth : World := ⟨⟨0, 0, true⟩, 0⟩

/-- Fresh world, not authenticated, no calls made yet. -/
def wUnauth : World := ⟨⟨0, 0, false⟩, 0⟩

/-- Cycle input whose `ensure_authenticated` fails with `ConnectionError`. -/
def connCycle : CycleInput := ⟨some SCError.connectionError, [], none⟩

/-- Cycle input whose `ensure_authenticated` raises `UnauthorizedError`
and whose recovery `login()` succeeds. -/
def unauthCycle : CycleInput := ⟨some SCError.unauthorizedError, [], none⟩

/-- Fully successful cycle refreshing one device (id 7, alive). -/
def okCycle7 : CycleInput := ⟨none, [(7, RefreshOutcome.ok true)], none⟩

/-- The HTTP status a transport event carried, if it was a response. -/
def statusOf : TransportEvent → Option Nat
  | TransportEvent.resp r => some r.status
  | TransportEvent.exc => none

/-- Either no transport call has been made, or the last one did not come
back with status 401 or 403. -/
def lastNotAuthFail (env : Nat → TransportEvent) (w : World) : Prop :=
  w.calls = 0 ∨ (statusOf (env (w.calls - 1)) ≠ some 401 ∧
                 statusOf (env (w.calls - 1)) ≠ some 403)

/-- The session invariant of the spec: believing the session
authenticated implies the last transport call did not return 401/403. -/
def sessionInv (env : Nat → TransportEvent) (w : World) : Prop :=
  w.st.isAuthenticated = true → lastNotAuthFail env w

/-!  Theorems settling the claims. -/

/-- Claim C1, counterexample.  With the default 3 attempts, an
alternating 401/200 transport sequence drives the retry executor to 5
transport calls (1 failed request plus two 2-call logins) before the
terminal `AuthError` — more than `maxAttempts = 3` when every transport
call, including those issued by `login()` during re-authentication, is
counted. -/
theorem C1_counterexample :
    requestJsonWithRetry altEnv 0 3 wAuth =
      (Except.error SCError.authError, ⟨⟨2, 0, false⟩, 5⟩) ∧
    ¬ ((requestJsonWithRetry altEnv 0 3 wAuth).2.calls ≤ 3) := by
  constructor
  · rfl
  · intro h
    simp only [show requestJsonWithRetry altEnv 0 3 wAuth =
      (Except.error SCError.authError, ⟨⟨2, 0, false⟩, 5⟩) from rfl] at h
    omega

/-- Claim C2, counterexample.  With `consecutiveErrorCount = 4` and
threshold 5, a cycle failing with `ConnectionError` raises the fatal
`UpdateFailed` in that very cycle (the counter is incremented to 5
before the threshold check), instead of returning the previous
snapshot. -/
theorem C2_counterexample :
    asyncUpdateData [connCycle] ⟨4⟩ = (CoordOutcome.fatal, ⟨5⟩, 1) ∧
    (asyncUpdateData [connCycle] ⟨4⟩).1 ≠ CoordOutcome.retStale := by
  constructor
  · rfl
  · intro h
    simp only [show asyncUpdateData [connCycle] ⟨4⟩ =
      (CoordOutcome.fatal, ⟨5⟩, 1) from rfl] at h
    exact absurd h (by simp)

/-- Claim C2, amended.  The counter is incremented before the threshold
check, so the cycle that brings it from 3 to 4 returns the previous
snapshot, and the cycle that brings it from 4 to 5 (the threshold)
raises the fatal failure itself. -/
theorem C2_threshold :
    asyncUpdateData [connCycle] ⟨3⟩ = (CoordOutcome.retStale, ⟨4⟩, 1) ∧
    asyncUpdateData [connCycle] ⟨4⟩ = (CoordOutcome.fatal, ⟨5⟩, 1) :=
  ⟨rfl, rfl⟩

/-- Claim C3, counterexample.  Two consecutive cycle-level
`UnauthorizedError`s with successful recovery logins cause two recursive
restarts from one external call (3 cycle invocations), so the number of
restarts is not bounded by 1. -/
theorem C3_counterexample :
    asyncUpdateData [unauthCycle, unauthCycle, okCycle7] ⟨0⟩ =
      (CoordOutcome.ret [(7, true)], ⟨0⟩, 3) ∧
    ¬ ((asyncUpdateData [unauthCycle, unauthCycle, okCycle7] ⟨0⟩).2.2 - 1 ≤ 1) := by
  constructor
  · rfl
  · intro h
    simp only [show asyncUpdateData [unauthCycle, unauthCycle, okCycle7] ⟨0⟩ =
      (CoordOutcome.ret [(7, true)], ⟨0⟩, 3) from rfl] at h
    omega

/-- Claim C3, amended.  Each invocation whose refresh phase raises
`UnauthorizedError` with a successful recovery login performs exactly
one restart and delegates the rest of the work to it, so `n` successive
such cycles produce `n` restarts: the recursion is unbounded, one
restart per successive cycle-level `UnauthorizedError`, not at most one
per original invocation. -/
theorem C3_unbounded_restarts (n : Nat) (rest : List CycleInput) (c : CoordState) :
    (asyncUpdateData (List.replicate n unauthCycle ++ rest) c).1 =
      (asyncUpdateData rest c).1 ∧
    (asyncUpdateData (List.replicate n unauthCycle ++ rest) c).2.1 =
      (asyncUpdateData rest c).2.1 ∧
    (asyncUpdateData (List.replicate n unauthCycle ++ rest) c).2.2 =
      (asyncUpdateData rest c).2.2 + n := by
  induction n with
  | zero => simp
  | succ k ih =>
    have ht : tryBlock unauthCycle = TryOutcome.raised SCError.unauthorizedError := rfl
    have hl : unauthCycle.loginResult = none := rfl
    simp only [List.replicate_succ, List.cons_append, asyncUpdateData, ht, hl]
    simp only [List.append_eq]
    refine ⟨ih.1, ih.2.1, ?_⟩
    rw [ih.2.2]
    omega

/-- Claim C4, counterexample.  `_request_json` is not wrapped in the
`_convert_errors` decorator, so a transport-level exception escapes as
the raw client error instead of being classified as `ConnectionError`. -/
theorem C4_counterexample :
    (requestJson (fun _ => TransportEvent.exc) wAuth).1 =
      Except.error SCError.clientError ∧
    (requestJson (fun _ => TransportEvent.exc) wAuth).1 ≠
      Except.error SCError.connectionError := by
  constructor
  · rfl
  · intro h
    simp only [show (requestJson (fun _ => TransportEvent.exc) wAuth).1 =
      Except.error SCError.clientError from rfl] at h
    exact absurd h (by simp)

/-- Claim C5, counterexample.  After a 401 on the first attempt, the
re-authentication `login()` hits a 500 and raises `ConnectionError`;
the handler only catches `AuthError`/`APIRateLimited`, so this
`ConnectionError` propagates after 2 transport calls even though 3
attempts were available — it is surfaced while retry attempts remain. -/
theorem C5_counterexample :
    requestJsonWithRetry env401then500 0 3 wAuth =
      (Except.error SCError.connectionError, ⟨⟨0, 0, false⟩, 2⟩) ∧
    requestJsonWithRetry env401then500 0 1 wAuth =
      requestJsonWithRetry env401then500 0 3 wAuth ∧
    ¬ ((requestJsonWithRetry env401then500 0 3 wAuth).2.calls ≥ 3) := by
  refine ⟨rfl, rfl, ?_⟩
  intro h
  simp only [show requestJsonWithRetry env401then500 0 3 wAuth =
    (Except.error SCError.connectionError, ⟨⟨0, 0, false⟩, 2⟩) from rfl] at h
  omega

/-- Claim C6, counterexample.  A `login()` whose verification response
has status 200 but carries no auth cookie at all succeeds (authenticated
becomes true, the null-cookie counter is cleared) instead of failing
with `AuthError`: only the empty-valued-cookie case is treated as a
rejection. -/
theorem C6_counterexample :
    login env200 0 wUnauth = (Except.ok (), ⟨⟨0, 0, true⟩, 2⟩) ∧
    (login env200 0 wUnauth).1 ≠ Except.error SCError.authError := by
  constructor
  · rfl
  · intro h
    simp only [show (login env200 0 wUnauth).1 = Except.ok () from rfl] at h
    exact absurd h (by simp)

/-- Claim C9: whenever the current time is strictly before
`nextLoginAllowedAt`, `login()` fails with `RateLimited` immediately,
performing zero transport calls and leaving the whole world (session
state and call count) unchanged. -/
theorem C9_rate_limited (env : Nat → TransportEvent) (now : Nat) (w : World)
    (h : now < w.st.nextLogin) :
    login env now w = (Except.error SCError.apiRateLimited, w) := by
  simp only [login, if_pos h]

/-- Witness for C9 at a concrete input. -/
theorem C9_witness :
    (0 : Nat) < 5 ∧
    login env200 0 ⟨⟨0, 5, false⟩, 0⟩ =
      (Except.error SCError.apiRateLimited, ⟨⟨0, 5, false⟩, 0⟩) :=
  ⟨by decide, C9_rate_limited env200 0 ⟨⟨0, 5, false⟩, 0⟩ (by decide)⟩

/-- The per-device loop never lets a `SomeComfortError` (in particular
`UnauthorizedError`) escape: only raw non-`SomeComfortError` exceptions
can be raised out of it. -/
theorem devLoop_no_unauthorized (ds : List (Nat × RefreshOutcome)) :
    ∀ acc, devLoop ds acc ≠ TryOutcome.raised SCError.unauthorizedError := by
  induction ds with
  | nil => intro acc; simp [devLoop]
  | cons hd tl ih =>
    intro acc
    obtain ⟨i, o⟩ := hd
    match o with
    | RefreshOutcome.ok alive => simpa [devLoop] using ih ((i, alive) :: acc)
    | RefreshOutcome.err e =>
      simp only [devLoop]
      split
      · exact ih _
      · rename_i hns
        intro hcontra
        apply hns
        rw [show e = SCError.unauthorizedError from
          (TryOutcome.raised.injEq _ _).mp hcontra]
        rfl

/-- Claim C10: a per-device `UnauthorizedError` is caught by the
device's own handler (it is a `SomeComfortError`), the device is
recorded with `available = false` and the loop continues; consequently,
when `ensure_authenticated` succeeds, the cycle-level
`UnauthorizedError` recovery path is never reached via a device refresh
failure — a single cycle invocation runs, with no recursive restart. -/
theorem C10_device_isolation :
    (∀ (i : Nat) (rest : List (Nat × RefreshOutcome)) (acc : List (Nat × Bool)),
      devLoop ((i, RefreshOutcome.err SCError.unauthorizedError) :: rest) acc =
        devLoop rest ((i, false) :: acc)) ∧
    (∀ (ds : List (Nat × RefreshOutcome)) (acc : List (Nat × Bool)),
      devLoop ds acc ≠ TryOutcome.raised SCError.unauthorizedError) ∧
    (∀ (ds : List (Nat × RefreshOutcome)) (lr : Option SCError)
      (rest : List CycleInput) (c : CoordState),
      (asyncUpdateData (⟨none, ds, lr⟩ :: rest) c).2.2 = 1) := by
  refine ⟨fun i rest acc => by simp [devLoop, isSomeComfortError],
          fun ds acc => devLoop_no_unauthorized ds acc,
          fun ds lr rest c => ?_⟩
  have ht : tryBlock ⟨none, ds, lr⟩ = devLoop ds [] := rfl
  simp only [asyncUpdateData, ht]
  rcases hdl : devLoop ds [] with data | e
  · rfl
  · have hne := devLoop_no_unauthorized ds []
    rw [hdl] at hne
    match e with
    | SCError.someComfortError => rfl
    | SCError.connectionError => simp only []; split <;> rfl
    | SCError.authError => rfl
    | SCError.apiError => rfl
    | SCError.apiRateLimited => rfl
    | SCError.serviceUnavailable => simp only []; split <;> rfl
    | SCError.unexpectedResponse => rfl
    | SCError.unauthorizedError => exact absurd rfl hne
    | SCError.clientError => rfl

/-- Witness for C10 at concrete inputs: a device failing with
`UnauthorizedError` is recorded unavailable and the loop goes on, and a
cycle whose `ensure_authenticated` succeeds runs exactly once. -/
theorem C10_witness :
    devLoop [(1, RefreshOutcome.err SCError.unauthorizedError)] [] =
      devLoop [] [(1, false)] ∧
    (asyncUpdateData [okCycle7] ⟨0⟩).2.2 = 1 :=
  ⟨C10_device_isolation.1 1 [] [],
   C10_device_isolation.2.2 [(7, RefreshOutcome.ok true)] none [] ⟨0⟩⟩

/-- One `login` performs at most 2 transport calls. -/
theorem login_calls_le (env : Nat → TransportEvent) (now : Nat) (w : World) :
    (login env now w).2.calls ≤ w.calls + 2 := by
  unfold login stepT
  split
  · simp
  · cases henv : env w.calls with
    | exc => simp
    | resp r =>
      simp only []
      split_ifs with h1 h2
      · simp
      · simp
      · cases henv2 : env (w.calls + 1) with
        | exc => simp
        | resp r2 =>
          simp only []
          split_ifs <;> simp

/-- One `ensure_authenticated` performs at most 2 transport calls. -/
theorem ensureAuth_calls_le (env : Nat → TransportEvent) (now : Nat) (w : World) :
    (ensureAuthenticated env now w).2.calls ≤ w.calls + 2 := by
  unfold ensureAuthenticated
  split
  · simp
  · exact login_calls_le env now w

/-- One `_request_json` performs exactly 1 transport call. -/
theorem requestJson_calls (env : Nat → TransportEvent) (w : World) :
    (requestJson env w).2.calls = w.calls + 1 := by
  unfold requestJson stepT
  cases henv : env w.calls with
  | exc => simp
  | resp r =>
    simp only []
    split_ifs <;> simp

/-- One attempt body performs at most 3 transport calls. -/
theorem attemptBody_calls_le (env : Nat → TransportEvent) (now : Nat) (w : World) :
    (attemptBody env now w).2.calls ≤ w.calls + 3 := by
  unfold attemptBody
  rcases hea : ensureAuthenticated env now w with ⟨res, w1⟩
  have h1 : w1.calls ≤ w.calls + 2 := by
    have := ensureAuth_calls_le env now w
    rw [hea] at this
    exact this
  cases res with
  | ok u =>
    simp only []
    have h2 := requestJson_calls env w1
    omega
  | error e => simp only []; omega

/-- The retry loop with `n` remaining attempts performs at most `5 * n`
further transport calls (per attempt: up to 2 in `ensure_authenticated`,
1 for the request itself, up to 2 in the re-authentication `login`). -/
theorem retryAux_calls_le (env : Nat → TransportEvent) (now : Nat)
    (n : Nat) (last : Option SCError) (w : World) :
    (retryAux env now n last w).2.calls ≤ w.calls + 5 * n := by
  induction n generalizing last w with
  | zero => simp [retryAux]
  | succ k ih =>
    rcases hab : attemptBody env now w with ⟨res, w1⟩
    have h1 : w1.calls ≤ w.calls + 3 := by
      have := attemptBody_calls_le env now w
      rw [hab] at this
      exact this
    cases res with
    | ok r => simp only [retryAux, hab]; omega
    | error e =>
      cases e with
      | unauthorizedError =>
        rcases hlog : login env now (authOff w1) with ⟨res2, w2⟩
        have h2 : w2.calls ≤ w1.calls + 2 := by
          have := login_calls_le env now (authOff w1)
          rw [hlog] at this
          simpa [authOff] using this
        cases res2 with
        | ok u =>
          simp only [retryAux, hab, hlog]
          have := ih last w2
          omega
        | error e2 =>
          have ha := ih (some SCError.authError) w2
          have hb := ih (some SCError.apiRateLimited) w2
          cases e2 <;> simp only [retryAux, hab, hlog] <;> omega
      | serviceUnavailable =>
        simp only [retryAux, hab]
        have := ih (some SCError.serviceUnavailable) w1
        omega
      | connectionError =>
        simp only [retryAux, hab]
        have := ih (some SCError.connectionError) w1
        omega
      | someComfortError => simp only [retryAux, hab]; omega
      | authError => simp only [retryAux, hab]; omega
      | apiError => simp only [retryAux, hab]; omega
      | apiRateLimited => simp only [retryAux, hab]; omega
      | unexpectedResponse => simp only [retryAux, hab]; omega
      | clientError => simp only [retryAux, hab]; omega

/-- Every successful `_request_json` result is the 200 response itself. -/
theorem requestJson_ok_status (env : Nat → TransportEvent) (w : World)
    (r : Response) (h : (requestJson env w).1 = Except.ok r) :
    r.status = 200 := by
  unfold requestJson stepT at h
  rcases henv : env w.calls with r' | _
  · rw [henv] at h
    simp only [] at h
    split_ifs at h with h1 h2 h3 h4
    obtain ⟨hs, _⟩ := h1
    simp only [Except.ok.injEq] at h
    rw [← h]
    exact hs
  · rw [henv] at h
    simp at h

/-- Every successful attempt-body result is a 200 response. -/
theorem attemptBody_ok_status (env : Nat → TransportEvent) (now : Nat) (w : World)
    (r : Response) (h : (attemptBody env now w).1 = Except.ok r) :
    r.status = 200 := by
  unfold attemptBody at h
  rcases hea : ensureAuthenticated env now w with ⟨res, w1⟩
  rw [hea] at h
  cases res with
  | ok u => exact requestJson_ok_status env w1 r h
  | error e => simp at h

/-- Every successful result of the retry loop is a 200 response. -/
theorem retryAux_ok_status (env : Nat → TransportEvent) (now : Nat)
    (n : Nat) (last : Option SCError) (w : World) (r : Response)
    (h : (retryAux env now n last w).1 = Except.ok r) :
    r.status = 200 := by
  induction n generalizing last w with
  | zero => simp [retryAux] at h
  | succ k ih =>
    rcases hab : attemptBody env now w with ⟨res, w1⟩
    cases res with
    | ok r' =>
      simp only [retryAux, hab, Except.ok.injEq] at h
      have : r'.status = 200 := by
        apply attemptBody_ok_status env now w
        rw [hab]
      rw [← h]
      exact this
    | error e =>
      cases e with
      | unauthorizedError =>
        rcases hlog : login env now (authOff w1) with ⟨res2, w2⟩
        cases res2 with
        | ok u =>
          simp only [retryAux, hab, hlog] at h
          exact ih last w2 h
        | error e2 =>
          cases e2 <;> simp only [retryAux, hab, hlog] at h <;>
            first
              | exact ih (some SCError.authError) w2 h
              | exact ih (some SCError.apiRateLimited) w2 h
              | simp at h
      | serviceUnavailable =>
        simp only [retryAux, hab] at h
        exact ih (some SCError.serviceUnavailable) w1 h
      | connectionError =>
        simp only [retryAux, hab] at h
        exact ih (some SCError.connectionError) w1 h
      | someComfortError => simp only [retryAux, hab] at h; simp at h
      | authError => simp only [retryAux, hab] at h; simp at h
      | apiError => simp only [retryAux, hab] at h; simp at h
      | apiRateLimited => simp only [retryAux, hab] at h; simp at h
      | unexpectedResponse => simp only [retryAux, hab] at h; simp at h
      | clientError => simp only [retryAux, hab] at h; simp at h

/-- Claim C1, amended.  For every transport-response sequence (in
particular every alternating 401/200 one) the retry executor terminates
with either the 200 payload or a terminal error, and the total number of
transport calls — counting every call, including the up to 2 issued by
each `login()` during (re-)authentication — is bounded by
`5 * maxAttempts`, not by `maxAttempts`. -/
theorem C1_retry_bounded (env : Nat → TransportEvent) (now : Nat)
    (retries : Nat) (w : World) :
    (requestJsonWithRetry env now retries w).2.calls ≤ w.calls + 5 * retries ∧
    (∀ r : Response, (requestJsonWithRetry env now retries w).1 = Except.ok r →
      r.status = 200) :=
  ⟨retryAux_calls_le env now retries none w,
   fun r h => retryAux_ok_status env now retries none w r h⟩

/-- Witness for C1 at a concrete input: a constant-200 oracle makes the
executor return a 200 payload within the call bound. -/
theorem C1_witness :
    (requestJsonWithRetry env200 0 3 wAuth).2.calls ≤ wAuth.calls + 5 * 3 ∧
    r200j.status = 200 :=
  ⟨(C1_retry_bounded env200 0 3 wAuth).1,
   (C1_retry_bounded env200 0 3 wAuth).2 r200j (by rfl)⟩

/-- Claim C4, amended.  `_request_json` classifies a response with the
stated precedence — 200 with an expected content type is success, 401
or 403 is `UnauthorizedError`, 500/502/503 or an internally redirected
response is `ServiceUnavailable`, everything else (including a 2xx with
an unexpected content type) is `UnexpectedResponse` — but a
transport-level exception is NOT converted to `ConnectionError`: it
escapes as the raw client error, since `_request_json` is not wrapped in
`_convert_errors`. -/
theorem C4_classification (r : Response) (w : World) :
    (r.status = 200 → r.contentType = ContentType.json ∨
        r.contentType = ContentType.octetStream →
      (requestJson (fun _ => TransportEvent.resp r) w).1 = Except.ok r) ∧
    (r.status = 401 ∨ r.status = 403 →
      (requestJson (fun _ => TransportEvent.resp r) w).1 =
        Except.error SCError.unauthorizedError) ∧
    (r.status = 500 ∨ r.status = 502 ∨ r.status = 503 →
      (requestJson (fun _ => TransportEvent.resp r) w).1 =
        Except.error SCError.serviceUnavailable) ∧
    (¬ (r.status = 200 ∧ (r.contentType = ContentType.json ∨
        r.contentType = ContentType.octetStream)) →
      r.status ≠ 401 → r.status ≠ 403 → r.hasHistory = true →
      (requestJson (fun _ => TransportEvent.resp r) w).1 =
        Except.error SCError.serviceUnavailable) ∧
    (¬ (r.status = 200 ∧ (r.contentType = ContentType.json ∨
        r.contentType = ContentType.octetStream)) →
      r.status ≠ 401 → r.status ≠ 403 →
      r.status ≠ 500 → r.status ≠ 502 → r.status ≠ 503 → r.hasHistory = false →
      (requestJson (fun _ => TransportEvent.resp r) w).1 =
        Except.error SCError.unexpectedResponse) ∧
    (∀ w2 : World, (requestJson (fun _ => TransportEvent.exc) w2).1 =
        Except.error SCError.clientError) := by
  refine ⟨?_, ?_, ?_, ?_, ?_, ?_⟩
  · intro h1 h2
    rcases h2 with h2 | h2 <;> simp [requestJson, stepT, h1, h2]
  · intro h
    rcases h with h | h <;> simp [requestJson, stepT, h]
  · intro h
    rcases h with h | h | h <;> simp [requestJson, stepT, h]
  · intro hn h401 h403 hh
    simp [requestJson, stepT, hn, h401, h403, hh]
  · intro hn h401 h403 h500 h502 h503 hh
    simp [requestJson, stepT, hn, h401, h403, h500, h502, h503, hh]
  · intro w2
    simp [requestJson, stepT]

/-- Witness for C4 at concrete inputs: a 401 response is classified as
`UnauthorizedError`. -/
theorem C4_witness :
    (requestJson (fun _ => TransportEvent.resp r401) wAuth).1 =
      Except.error SCError.unauthorizedError :=
  (C4_classification r401 wAuth).2.1 (Or.inl (by rfl))

/-- Under a constant-503 oracle, the attempt body (of an authenticated
session) yields `ServiceUnavailable` after one transport call. -/
theorem attemptBody_su (now : Nat) (w : World)
    (hw : w.st.isAuthenticated = true) :
    attemptBody env503 now w =
      (Except.error SCError.serviceUnavailable, ⟨w.st, w.calls + 1⟩) := by
  simp [attemptBody, ensureAuthenticated, hw, requestJson, stepT, env503, r503]

/-- Under a constant-503 oracle, the retry loop retries until attempts
are exhausted: `n + 1` attempts make `n + 1` transport calls and only
then surface `ServiceUnavailable`. -/
theorem retryAux_su (now : Nat) (n : Nat) (last : Option SCError) (w : World)
    (hw : w.st.isAuthenticated = true) :
    retryAux env503 now (n + 1) last w =
      (Except.error SCError.serviceUnavailable, ⟨w.st, w.calls + (n + 1)⟩) := by
  induction n generalizing last w with
  | zero =>
    rw [show retryAux env503 now (0 + 1) last w = retryAux env503 now 1 last w from rfl]
    simp only [retryAux, attemptBody_su now w hw]
    simp
  | succ k ih =>
    rw [show retryAux env503 now (k + 1 + 1) last w =
      match attemptBody env503 now w with
      | (Except.ok r, w1) => (Except.ok r, w1)
      | (Except.error SCError.unauthorizedError, w1) =>
        (match login env503 now (authOff w1) with
         | (Except.ok _, w2) => retryAux env503 now (k + 1) last w2
         | (Except.error SCError.authError, w2) =>
            retryAux env503 now (k + 1) (some SCError.authError) w2
         | (Except.error SCError.apiRateLimited, w2) =>
            retryAux env503 now (k + 1) (some SCError.apiRateLimited) w2
         | (Except.error e, w2) => (Except.error e, w2))
      | (Except.error SCError.serviceUnavailable, w1) =>
        retryAux env503 now (k + 1) (some SCError.serviceUnavailable) w1
      | (Except.error SCError.connectionError, w1) =>
        retryAux env503 now (k + 1) (some SCError.connectionError) w1
      | (Except.error e, w1) => (Except.error e, w1) from rfl]
    rw [attemptBody_su now w hw]
    dsimp only []
    rw [ih (some SCError.serviceUnavailable) ⟨w.st, w.calls + 1⟩ hw]
    simp only [Prod.mk.injEq, World.mk.injEq, true_and]
    omega

/-- Under a constant-500 oracle, an unauthenticated attempt body fails
with `ConnectionError` raised by the `login` inside
`ensure_authenticated`, after one transport call. -/
theorem attemptBody_ce (now : Nat) (w : World)
    (hw : w.st.isAuthenticated = false) (hr : w.st.nextLogin ≤ now) :
    attemptBody env500 now w =
      (Except.error SCError.connectionError, ⟨w.st, w.calls + 1⟩) := by
  have hnr : ¬ (w.st.nextLogin > now) := Nat.not_lt.mpr hr
  simp [attemptBody, ensureAuthenticated, hw, login, stepT, hnr, env500, r500]

/-- Under a constant-500 oracle, the retry loop retries the
`ConnectionError` coming from `ensure_authenticated`'s login until
attempts are exhausted. -/
theorem retryAux_ce (now : Nat) (n : Nat) (last : Option SCError) (w : World)
    (hw : w.st.isAuthenticated = false) (hr : w.st.nextLogin ≤ now) :
    retryAux env500 now (n + 1) last w =
      (Except.error SCError.connectionError, ⟨w.st, w.calls + (n + 1)⟩) := by
  induction n generalizing last w with
  | zero =>
    rw [show retryAux env500 now (0 + 1) last w = retryAux env500 now 1 last w from rfl]
    simp only [retryAux, attemptBody_ce now w hw hr]
    simp
  | succ k ih =>
    rw [show retryAux env500 now (k + 1 + 1) last w =
      match attemptBody env500 now w with
      | (Except.ok r, w1) => (Except.ok r, w1)
      | (Except.error SCError.unauthorizedError, w1) =>
        (match login env500 now (authOff w1) with
         | (Except.ok _, w2) => retryAux env500 now (k + 1) last w2
         | (Except.error SCError.authError, w2) =>
            retryAux env500 now (k + 1) (some SCError.authError) w2
         | (Except.error SCError.apiRateLimited, w2) =>
            retryAux env500 now (k + 1) (some SCError.apiRateLimited) w2
         | (Except.error e, w2) => (Except.error e, w2))
      | (Except.error SCError.serviceUnavailable, w1) =>
        retryAux env500 now (k + 1) (some SCError.serviceUnavailable) w1
      | (Except.error SCError.connectionError, w1) =>
        retryAux env500 now (k + 1) (some SCError.connectionError) w1
      | (Except.error e, w1) => (Except.error e, w1) from rfl]
    rw [attemptBody_ce now w hw hr]
    dsimp only []
    rw [ih (some SCError.connectionError) ⟨w.st, w.calls + 1⟩ hw hr]
    simp only [Prod.mk.injEq, World.mk.injEq, true_and]
    omega

/-- Claim C5, amended.  `ServiceUnavailable` from the request and
`ConnectionError` from the login inside `ensure_authenticated` are
recovered locally — they surface only after all attempts are exhausted.
But a `ConnectionError` raised by the `login()` performed for
re-authentication after an `UnauthorizedError` is not caught by the
handler (which only catches `AuthError`/`RateLimited`) and propagates to
the caller immediately, even when retry attempts remain. -/
theorem C5_retry_policy :
    (∀ (now : Nat) (n : Nat) (w : World), w.st.isAuthenticated = true →
      requestJsonWithRetry env503 now (n + 1) w =
        (Except.error SCError.serviceUnavailable, ⟨w.st, w.calls + (n + 1)⟩)) ∧
    (∀ (now : Nat) (n : Nat) (w : World), w.st.isAuthenticated = false →
      w.st.nextLogin ≤ now →
      requestJsonWithRetry env500 now (n + 1) w =
        (Except.error SCError.connectionError, ⟨w.st, w.calls + (n + 1)⟩)) ∧
    (∀ (env : Nat → TransportEvent) (now : Nat) (n : Nat) (w : World),
      w.st.isAuthenticated = true → w.st.nextLogin ≤ now →
      env w.calls = TransportEvent.resp r401 →
      env (w.calls + 1) = TransportEvent.resp r500 →
      requestJsonWithRetry env now (n + 2) w =
        (Except.error SCError.connectionError,
         ⟨⟨w.st.nullCookieCount, w.st.nextLogin, false⟩, w.calls + 2⟩)) := by
  refine ⟨fun now n w hw => retryAux_su now n none w hw,
          fun now n w hw hr => retryAux_ce now n none w hw hr,
          fun env now n w hw hr henv1 henv2 => ?_⟩
  have hnr : ¬ (w.st.nextLogin > now) := Nat.not_lt.mpr hr
  have hab : attemptBody env now w =
      (Except.error SCError.unauthorizedError,
       ⟨⟨w.st.nullCookieCount, w.st.nextLogin, false⟩, w.calls + 1⟩) := by
    simp [attemptBody, ensureAuthenticated, hw, requestJson, stepT, henv1, r401]
  have hlog : login env now
      (authOff ⟨⟨w.st.nullCookieCount, w.st.nextLogin, false⟩, w.calls + 1⟩) =
      (Except.error SCError.connectionError,
       ⟨⟨w.st.nullCookieCount, w.st.nextLogin, false⟩, w.calls + 2⟩) := by
    simp [login, authOff, stepT, hnr, henv2, r500]
  rw [show requestJsonWithRetry env now (n + 2) w =
    match attemptBody env now w with
    | (Except.ok r, w1) => (Except.ok r, w1)
    | (Except.error SCError.unauthorizedError, w1) =>
      (match login env now (authOff w1) with
       | (Except.ok _, w2) => retryAux env now (n + 1) none w2
       | (Except.error SCError.authError, w2) =>
          retryAux env now (n + 1) (some SCError.authError) w2
       | (Except.error SCError.apiRateLimited, w2) =>
          retryAux env now (n + 1) (some SCError.apiRateLimited) w2
       | (Except.error e, w2) => (Except.error e, w2))
    | (Except.error SCError.serviceUnavailable, w1) =>
      retryAux env now (n + 1) (some SCError.serviceUnavailable) w1
    | (Except.error SCError.connectionError, w1) =>
      retryAux env now (n + 1) (some SCError.connectionError) w1
    | (Except.error e, w1) => (Except.error e, w1) from rfl]
  rw [hab]
  dsimp only []
  rw [hlog]

/-- Witness for C5 at concrete inputs: one attempt under a constant-503
oracle surfaces `ServiceUnavailable`, and the 401-then-500 oracle makes
the re-authentication login's `ConnectionError` surface at once. -/
theorem C5_witness :
    requestJsonWithRetry env503 0 1 wAuth =
      (Except.error SCError.serviceUnavailable, ⟨wAuth.st, 1⟩) ∧
    requestJsonWithRetry env401then500 0 3 wAuth =
      (Except.error SCError.connectionError, ⟨⟨0, 0, false⟩, 2⟩) :=
  ⟨C5_retry_policy.1 0 0 wAuth (by rfl),
   C5_retry_policy.2.2 env401then500 0 1 wAuth (by rfl) (by decide)
     (by rfl) (by rfl)⟩

/-- Claim C6, amended.  In a 200 verification response, only an
*empty-valued* auth cookie is treated like a credential rejection
(counter increment via `_set_null_count`, `AuthError`); a verification
response with the auth cookie *missing* altogether is treated as a
successful login (counter cleared, `authenticated = true`). -/
theorem C6_null_cookie (env : Nat → TransportEvent) (now : Nat) (w : World)
    (r1 r2 : Response)
    (hr : w.st.nextLogin ≤ now)
    (h1 : env w.calls = TransportEvent.resp r1)
    (h1s : r1.status = 200)
    (h2 : env (w.calls + 1) = TransportEvent.resp r2) :
    (r2.cookie = some "" →
      login env now w =
        (Except.error SCError.authError, ⟨setNullCount now w.st, w.calls + 2⟩)) ∧
    (r2.cookie = none → r2.status = 200 →
      login env now w = (Except.ok (), ⟨⟨0, w.st.nextLogin, true⟩, w.calls + 2⟩)) := by
  have hnr : ¬ (w.st.nextLogin > now) := Nat.not_lt.mpr hr
  constructor
  · intro hc
    simp [login, stepT, hnr, h1, h1s, h2, hc]
  · intro hc hs
    simp [login, stepT, hnr, h1, h1s, h2, hc, hs]

/-- Witness for C6 at concrete inputs: a login whose verification
response carries an empty-valued cookie fails with `AuthError` and
increments the counter. -/
theorem C6_witness :
    login envEmptyCookie 0 wUnauth =
      (Except.error SCError.authError, ⟨setNullCount 0 wUnauth.st, 2⟩) :=
  (C6_null_cookie envEmptyCookie 0 wUnauth rEmptyCookie rEmptyCookie
    (by decide) (by rfl) (by rfl) (by rfl)).1 (by rfl)

/-- Under the constant empty-cookie oracle, every permitted login fails
with `AuthError` after 2 transport calls, applying `_set_null_count`. -/
theorem login_empty_cookie (now : Nat) (w : World) (hr : w.st.nextLogin ≤ now) :
    login envEmptyCookie now w =
      (Except.error SCError.authError, ⟨setNullCount now w.st, w.calls + 2⟩) := by
  have hnr : ¬ (w.st.nextLogin > now) := Nat.not_lt.mpr hr
  simp [login, stepT, hnr, envEmptyCookie, rEmptyCookie]

/-- A login attempted before `nextLogin` is refused without any
transport call and without touching the state. -/
theorem login_rate (env : Nat → TransportEvent) (now : Nat) (w : World)
    (h : now < w.st.nextLogin) :
    login env now w = (Except.error SCError.apiRateLimited, w) := by
  simp only [login, if_pos h]

/-- Claim C8: starting with a clear null-cookie counter, three
consecutive logins whose verification responses carry empty auth cookies
drive the counter to 3 = MAX_LOGIN_ATTEMPTS, set `nextLoginAllowedAt` to
the third login's time plus MIN_LOGIN_TIME, and a fourth login inside
that window fails with `RateLimited`, performing zero transport calls
and leaving the state unchanged. -/
theorem C8_cooldown (t1 t2 t3 t4 : Nat) (w : World)
    (h0 : w.st.nullCookieCount = 0)
    (h1 : w.st.nextLogin ≤ t1) (h12 : t1 ≤ t2) (h23 : t2 ≤ t3)
    (h4 : t4 < t3 + MIN_LOGIN_TIME) :
    (login envEmptyCookie t3
      (login envEmptyCookie t2 (login envEmptyCookie t1 w).2).2).2.st =
        ⟨3, t3 + MIN_LOGIN_TIME, false⟩ ∧
    login envEmptyCookie t4
      (login envEmptyCookie t3
        (login envEmptyCookie t2 (login envEmptyCookie t1 w).2).2).2 =
      (Except.error SCError.apiRateLimited,
       (login envEmptyCookie t3
         (login envEmptyCookie t2 (login envEmptyCookie t1 w).2).2).2) := by
  obtain ⟨⟨cnt, nl, au⟩, calls⟩ := w
  simp only [] at h0 h1
  subst h0
  have s1 : setNullCount t1 (⟨0, nl, au⟩ : ClientState) = ⟨1, nl, false⟩ := by
    simp [setNullCount, MAX_LOGIN_ATTEMPTS]
  have s2 : setNullCount t2 (⟨1, nl, false⟩ : ClientState) = ⟨2, nl, false⟩ := by
    simp [setNullCount, MAX_LOGIN_ATTEMPTS]
  have s3 : setNullCount t3 (⟨2, nl, false⟩ : ClientState) =
      ⟨3, t3 + MIN_LOGIN_TIME, false⟩ := by
    simp [setNullCount, MAX_LOGIN_ATTEMPTS]
  have e1 := login_empty_cookie t1 ⟨⟨0, nl, au⟩, calls⟩ h1
  rw [e1]
  simp only [s1]
  have e2 := login_empty_cookie t2 ⟨⟨1, nl, false⟩, calls + 2⟩
    (le_trans h1 h12)
  rw [e2]
  simp only [s2]
  have e3 := login_empty_cookie t3 ⟨⟨2, nl, false⟩, calls + 2 + 2⟩
    (le_trans (le_trans h1 h12) h23)
  rw [e3]
  simp only [s3]
  have e4 := login_rate envEmptyCookie t4
    ⟨⟨3, t3 + MIN_LOGIN_TIME, false⟩, calls + 2 + 2 + 2⟩ h4
  rw [e4]
  exact ⟨trivial, rfl⟩

/-- Witness for C8 at concrete inputs. -/
theorem C8_witness :
    (login envEmptyCookie 0
      (login envEmptyCookie 0 (login envEmptyCookie 0 wUnauth).2).2).2.st =
        ⟨3, 0 + MIN_LOGIN_TIME, false⟩ ∧
    login envEmptyCookie 100
      (login envEmptyCookie 0
        (login envEmptyCookie 0 (login envEmptyCookie 0 wUnauth).2).2).2 =
      (Except.error SCError.apiRateLimited,
       (login envEmptyCookie 0
         (login envEmptyCookie 0 (login envEmptyCookie 0 wUnauth).2).2).2) :=
  C8_cooldown 0 0 0 100 wUnauth (by rfl) (by decide) (by decide) (by decide)
    (by decide)

/-- The helper `_set_null_count` always leaves the session unauthenticated. -/
theorem setNullCount_auth (now : Nat) (s : ClientState) :
    (setNullCount now s).isAuthenticated = false := by
  simp only [setNullCount]
  split <;> rfl

/-- A `login` started while unauthenticated re-establishes the
invariant: whenever it leaves the session authenticated, its last
transport call was the successful 200 verification response. -/
theorem login_inv (env : Nat → TransportEvent) (now : Nat) (w : World)
    (hw : w.st.isAuthenticated = false) :
    sessionInv env (login env now w).2 := by
  unfold sessionInv login stepT
  split
  · intro h
    rw [hw] at h
    exact Bool.noConfusion h
  · cases henv : env w.calls with
    | exc =>
      intro h
      simp only [] at h
      rw [hw] at h
      exact Bool.noConfusion h
    | resp r =>
      dsimp only []
      split_ifs with hA hB
      · intro h
        simp only [setNullCount_auth] at h
        exact Bool.noConfusion h
      · intro h
        simp only [] at h
        rw [hw] at h
        exact Bool.noConfusion h
      · cases henv2 : env (w.calls + 1) with
        | exc =>
          intro h
          simp only [] at h
          rw [hw] at h
          exact Bool.noConfusion h
        | resp r2 =>
          dsimp only []
          split_ifs with hC hD hE
          · intro h
            simp only [setNullCount_auth] at h
            exact Bool.noConfusion h
          · intro h
            simp only [setNullCount_auth] at h
            exact Bool.noConfusion h
          · intro h
            simp only [] at h
            rw [hw] at h
            exact Bool.noConfusion h
          · intro _
            refine Or.inr ?_
            simp only [statusOf, Nat.add_sub_cancel, henv2]
            have hs : r2.status = 200 := not_not.mp hE
            simp [hs]

/-- The classifier `_request_json` re-establishes the invariant unconditionally: its
only branch leaving (or keeping) the session authenticated records a
non-401/403 status as the last transport call. -/
theorem requestJson_inv (env : Nat → TransportEvent) (w : World) :
    sessionInv env (requestJson env w).2 := by
  unfold sessionInv requestJson stepT
  cases henv : env w.calls with
  | exc =>
    intro _
    refine Or.inr ?_
    simp [statusOf, henv]
  | resp r =>
    dsimp only []
    split_ifs with hA hB hC hD
    · intro _
      refine Or.inr ?_
      simp only [statusOf, Nat.add_sub_cancel, henv]
      simp [hA.1]
    · intro h
      simp only [] at h
    · intro h
      simp only [] at h
    · intro _
      refine Or.inr ?_
      simp only [statusOf, Nat.add_sub_cancel, henv]
      simp [hB, hC]
    · intro _
      refine Or.inr ?_
      simp only [statusOf, Nat.add_sub_cancel, henv]
      simp [hB, hC]

/-- The guard `ensure_authenticated` preserves the invariant. -/
theorem ensureAuth_inv (env : Nat → TransportEvent) (now : Nat) (w : World)
    (hI : sessionInv env w) :
    sessionInv env (ensureAuthenticated env now w).2 := by
  unfold ensureAuthenticated
  split
  · exact hI
  · rename_i hw
    exact login_inv env now w (by simpa using hw)

/-- The attempt body preserves the invariant. -/
theorem attemptBody_inv (env : Nat → TransportEvent) (now : Nat) (w : World)
    (hI : sessionInv env w) :
    sessionInv env (attemptBody env now w).2 := by
  unfold attemptBody
  rcases hea : ensureAuthenticated env now w with ⟨res, w1⟩
  have h1 : sessionInv env w1 := by
    have := ensureAuth_inv env now w hI
    rw [hea] at this
    exact this
  cases res with
  | ok u => exact requestJson_inv env w1
  | error e => exact h1

/-- The retry loop preserves the invariant. -/
theorem retryAux_inv (env : Nat → TransportEvent) (now : Nat)
    (n : Nat) (last : Option SCError) (w : World) (hI : sessionInv env w) :
    sessionInv env (retryAux env now n last w).2 := by
  induction n generalizing last w with
  | zero => exact hI
  | succ k ih =>
    rcases hab : attemptBody env now w with ⟨res, w1⟩
    have h1 : sessionInv env w1 := by
      have := attemptBody_inv env now w hI
      rw [hab] at this
      exact this
    simp only [retryAux]
    rw [hab]
    cases res with
    | ok r => exact h1
    | error e =>
      have h2 : ∀ res2 w2, login env now (authOff w1) = (res2, w2) →
          sessionInv env w2 := by
        intro res2 w2 hlog
        have := login_inv env now (authOff w1) (by rfl)
        rw [hlog] at this
        exact this
      cases e with
      | unauthorizedError =>
        dsimp only []
        rcases hlog : login env now (authOff w1) with ⟨res2, w2⟩
        cases res2 with
        | ok u => exact ih last w2 (h2 _ _ hlog)
        | error e2 =>
          cases e2 with
          | authError => exact ih (some SCError.authError) w2 (h2 _ _ hlog)
          | apiRateLimited =>
            exact ih (some SCError.apiRateLimited) w2 (h2 _ _ hlog)
          | someComfortError => exact h2 _ _ hlog
          | connectionError => exact h2 _ _ hlog
          | apiError => exact h2 _ _ hlog
          | serviceUnavailable => exact h2 _ _ hlog
          | unexpectedResponse => exact h2 _ _ hlog
          | unauthorizedError => exact h2 _ _ hlog
          | clientError => exact h2 _ _ hlog
      | serviceUnavailable => exact ih (some SCError.serviceUnavailable) w1 h1
      | connectionError => exact ih (some SCError.connectionError) w1 h1
      | someComfortError => exact h1
      | authError => exact h1
      | apiError => exact h1
      | apiRateLimited => exact h1
      | unexpectedResponse => exact h1
      | clientError => exact h1

/-- A 401 or 403 response makes `_request_json` drop the authenticated
flag. -/
theorem requestJson_flip (env : Nat → TransportEvent) (w : World) (r : Response)
    (henv : env w.calls = TransportEvent.resp r)
    (h : r.status = 401 ∨ r.status = 403) :
    (requestJson env w).2.st.isAuthenticated = false := by
  rcases h with h | h <;> simp [requestJson, stepT, henv, h]

/-- The only way `_request_json` moves the session from authenticated to
unauthenticated is a 401/403 response. -/
theorem requestJson_into_unauth (env : Nat → TransportEvent) (w : World)
    (hw : w.st.isAuthenticated = true)
    (h : (requestJson env w).2.st.isAuthenticated = false) :
    ∃ r, env w.calls = TransportEvent.resp r ∧
      (r.status = 401 ∨ r.status = 403) := by
  unfold requestJson stepT at h
  cases henv : env w.calls with
  | exc =>
    rw [henv] at h
    simp only [] at h
    rw [hw] at h
    exact Bool.noConfusion h
  | resp r =>
    rw [henv] at h
    dsimp only [] at h
    split_ifs at h with hA hB hC hD
    · simp only [] at h
      rw [hw] at h
      exact Bool.noConfusion h
    · exact ⟨r, rfl, Or.inl hB⟩
    · exact ⟨r, rfl, Or.inr hC⟩
    · simp only [] at h
      rw [hw] at h
      exact Bool.noConfusion h
    · simp only [] at h
      rw [hw] at h
      exact Bool.noConfusion h

/-- If `login` ends believed-authenticated, either it started that way
or it returned success (completed the full two-step handshake). -/
theorem login_soleOut (env : Nat → TransportEvent) (now : Nat) (w : World)
    (h : (login env now w).2.st.isAuthenticated = true) :
    w.st.isAuthenticated = true ∨ (login env now w).1 = Except.ok () := by
  rcases hl : login env now w with ⟨res, w2⟩
  rw [hl] at h
  dsimp only [] at h ⊢
  simp only [login, stepT] at hl
  split at hl
  · injection hl with h1 h2
    subst h1; subst h2
    exact Or.inl h
  · split at hl
    · injection hl with h1 h2
      subst h1; subst h2
      exact Or.inl h
    · split at hl
      · injection hl with h1 h2
        subst h1; subst h2
        exact absurd h (by simp [setNullCount_auth])
      · split at hl
        · injection hl with h1 h2
          subst h1; subst h2
          exact Or.inl h
        · split at hl
          · injection hl with h1 h2
            subst h1; subst h2
            exact Or.inl h
          · split at hl
            · injection hl with h1 h2
              subst h1; subst h2
              exact absurd h (by simp [setNullCount_auth])
            · split at hl
              · injection hl with h1 h2
                subst h1; subst h2
                exact absurd h (by simp [setNullCount_auth])
              · split at hl
                · injection hl with h1 h2
                  subst h1; subst h2
                  exact Or.inl h
                · injection hl with h1 h2
                  subst h1; subst h2
                  exact Or.inr rfl

/-- The classifier `_request_json` never establishes the authenticated flag. -/
theorem requestJson_soleOut (env : Nat → TransportEvent) (w : World)
    (h : (requestJson env w).2.st.isAuthenticated = true) :
    w.st.isAuthenticated = true := by
  unfold requestJson stepT at h
  cases henv : env w.calls with
  | exc =>
    rw [henv] at h
    simpa using h
  | resp r =>
    rw [henv] at h
    dsimp only [] at h
    split_ifs at h <;> simp_all

/-- Claim C7: the session state-machine invariant.  Under the repo's
call discipline (`login` invoked only while unauthenticated, which holds
at every call site), `authenticated = true` always implies the last
transport call returned a non-401/403 status — preserved by `login`,
`_request_json`, `ensure_authenticated` and the whole retry executor;
every 401/403 seen by `_request_json` immediately drops the flag, and it
is the sole transition into the unauthenticated state there; the sole
transition out of it is a `login` that completes the two-step handshake
successfully (`_request_json` never sets the flag). -/
theorem C7_session_invariant :
    (∀ (env : Nat → TransportEvent) (now : Nat) (w : World),
      w.st.isAuthenticated = false → sessionInv env (login env now w).2) ∧
    (∀ (env : Nat → TransportEvent) (w : World),
      sessionInv env (requestJson env w).2) ∧
    (∀ (env : Nat → TransportEvent) (now : Nat) (w : World),
      sessionInv env w → sessionInv env (ensureAuthenticated env now w).2) ∧
    (∀ (env : Nat → TransportEvent) (now : Nat) (n : Nat) (w : World),
      sessionInv env w → sessionInv env (requestJsonWithRetry env now n w).2) ∧
    (∀ (env : Nat → TransportEvent) (w : World) (r : Response),
      env w.calls = TransportEvent.resp r → r.status = 401 ∨ r.status = 403 →
      (requestJson env w).2.st.isAuthenticated = false) ∧
    (∀ (env : Nat → TransportEvent) (w : World),
      w.st.isAuthenticated = true →
      (requestJson env w).2.st.isAuthenticated = false →
      ∃ r, env w.calls = TransportEvent.resp r ∧
        (r.status = 401 ∨ r.status = 403)) ∧
    (∀ (env : Nat → TransportEvent) (now : Nat) (w : World),
      (login env now w).2.st.isAuthenticated = true →
      w.st.isAuthenticated = true ∨ (login env now w).1 = Except.ok ()) ∧
    (∀ (env : Nat → TransportEvent) (w : World),
      (requestJson env w).2.st.isAuthenticated = true →
      w.st.isAuthenticated = true) :=
  ⟨login_inv, requestJson_inv, ensureAuth_inv,
   fun env now n w hI => retryAux_inv env now n none w hI,
   requestJson_flip, requestJson_into_unauth, login_soleOut, requestJson_soleOut⟩

/-- Witness for C7 at concrete inputs: a 401 response drops the
authenticated flag. -/
theorem C7_witness :
    (requestJson (fun _ => TransportEvent.resp r401) wAuth).2.st.isAuthenticated
      = false :=
  C7_session_invariant.2.2.2.2.1 (fun _ => TransportEvent.resp r401) wAuth r401
    (by rfl) (Or.inl (by rfl))

end MyHoneywell
